import Mathlib

/-!
Verification of the spawnm instance-lifecycle orchestrator (src/main.py).

The Python program is shallowly embedded: the Registry file content is an
association list with Python-dict semantics (unique keys, insertion order,
assignment overwrites in place), external subprocess calls (hcloud, ssh,
rsync) are modelled by their observable results passed in as parameters,
and `sys.exit` / uncaught exceptions are modelled with `Except`.
-/

namespace Spawnm

/-- `InstanceInfo` (src/main.py, `class InstanceInfo(TypedDict)`): the record
stored per instance in `instances.json`.  Fields that JSON may hold as
`null` are `Option String`. -/
structure InstanceInfo where
  name : String
  size : String
  image : String
  location : String
  ip : Option String
  root_password : Option String
  ssh_key : Option String
deriving Repr, DecidableEq, Inhabited

/-- The Registry (`instances.json`): a Python dict `name -> InstanceInfo`,
modelled as an association list in insertion order with unique keys. -/
abbrev Registry := List (String × InstanceInfo)

/-- Python dict lookup `d.get(k)` / `k in d` on an association list:
first binding wins. -/
def dictGet? {α : Type} : List (String × α) → String → Option α
  | [], _ => none
  | (k', v) :: rest, k => if k' = k then some v else dictGet? rest k

/-- Python dict assignment `d[k] = v`: overwrite in place when the key is
present, append otherwise. -/
def dictInsert {α : Type} : List (String × α) → String → α → List (String × α)
  | [], k, v => [(k, v)]
  | (k', v') :: rest, k, v =>
    if k' = k then (k, v) :: rest else (k', v') :: dictInsert rest k v

/-- Python dict deletion `del d[k]` (on a dict with unique keys this removes
the single binding of `k`). -/
def dictErase {α : Type} (d : List (String × α)) (k : String) : List (String × α) :=
  d.filter (fun p => p.1 ≠ k)

/-- Python truthiness of an optional string (`if ip:`): `None` and the empty
string are falsy. -/
def optStrTruthy : Option String → Bool
  | none => false
  | some s => s ≠ ""

/-- Python `str(x)` as used by f-strings on a value that is either a string
or `None`. -/
def pyStrOpt : Option String → String
  | none => "None"
  | some s => s

/-- `add_instance` (src/main.py:217): load, `instances[name] = info`, save.
The file is always rewritten. -/
def add_instance (reg : Registry) (name : String) (info : InstanceInfo) : Registry :=
  dictInsert reg name info

/-- Result of `remove_instance`: the Registry file content afterwards, and
whether `save_instances` was called (i.e. whether the file was written). -/
structure RemoveResult where
  registry : Registry
  wrote : Bool
deriving Repr, DecidableEq

/-- `remove_instance` (src/main.py:224): load; only when `name in instances`
delete the entry and save; otherwise nothing is written. -/
def remove_instance (reg : Registry) (name : String) : RemoveResult :=
  if (dictGet? reg name).isSome then
    { registry := dictErase reg name, wrote := true }
  else
    { registry := reg, wrote := false }

example : remove_instance [] "a" = { registry := [], wrote := false } := by decide

/-! ## Provider Gateway results

External `hcloud` calls are modelled by their observable outcome, supplied
as a parameter: an exit code, and for `create` the fields extracted from the
parsed JSON response. -/

/-- Outcome of `hcloud server create ... --output json` as consumed by
`create_server` (src/main.py:400-409): the process exit code, and (when it
parsed) `root_password` and `server.public_net.ipv4.ip`, each possibly
absent (`.get` returns `None`). -/
structure ProviderCreateResult where
  returncode : Int
  ip : Option String
  root_password : Option String
deriving Repr, DecidableEq

/-- Observable outcome of `create_server` (src/main.py:363-459) after a
successful provider call: the Registry afterwards and which optional steps
ran.  `proberCalled` is `wait_for_ssh`, `syncCalled` is `sync_workdir`,
`launcherCalled` is `ssh_into_server` (which replaces the process). -/
structure CreateOutcome where
  registry : Registry
  proberCalled : Bool
  syncCalled : Bool
  launcherCalled : Bool
deriving Repr, DecidableEq

/-- `create_server` (src/main.py:363-459).  On a non-zero provider exit code
the program does `sys.exit(returncode)` before any Registry write
(`.error`).  Otherwise it saves the instance record, then:
`if ip and (do_ssh or workdir):` wait for SSH; `if workdir:` sync;
`if do_ssh:` exec ssh. -/
def create_server (reg : Registry) (res : ProviderCreateResult)
    (name size image location : String) (ssh_key_name : Option String)
    (do_ssh : Bool) (workdir : Option String) : Except Int CreateOutcome :=
  if res.returncode ≠ 0 then
    .error res.returncode
  else
    let info : InstanceInfo :=
      { name := name, size := size, image := image, location := location,
        ip := res.ip, root_password := res.root_password, ssh_key := ssh_key_name }
    .ok
      { registry := add_instance reg name info
        proberCalled := optStrTruthy res.ip && (do_ssh || optStrTruthy workdir)
        syncCalled := optStrTruthy workdir
        launcherCalled := do_ssh }

/-- The Registry file content after `create_server` returns or exits: a
failed provider call exits before `add_instance`, leaving the file as it
was. -/
def registryAfterCreate (reg : Registry) (res : ProviderCreateResult)
    (name size image location : String) (ssh_key_name : Option String)
    (do_ssh : Bool) (workdir : Option String) : Registry :=
  match create_server reg res name size image location ssh_key_name do_ssh workdir with
  | .error _ => reg
  | .ok o => o.registry

/-- Outcome of `destroy_server` (src/main.py:462-468): the returned exit
code of `hcloud server delete` and the Registry afterwards (the entry is
removed only when the delete succeeded). -/
structure DestroyResult where
  returncode : Int
  registry : Registry
deriving Repr, DecidableEq

/-- `destroy_server` (src/main.py:462-468).  `deleteRc` is the exit code of
`hcloud server delete name`. -/
def destroy_server (reg : Registry) (deleteRc : Int) (name : String) : DestroyResult :=
  if deleteRc = 0 then
    { returncode := deleteRc, registry := (remove_instance reg name).registry }
  else
    { returncode := deleteRc, registry := reg }

/-- Observable outcome of `cmd_destroy` (src/main.py:533-568): the process
exit status (`0` on a plain return from `main`, the argument of `sys.exit`
otherwise), the final Registry, the names passed to provider delete calls
in order, and the lines printed by `cmd_destroy` itself (output produced
inside `destroy_server` is not modelled). -/
structure DestroyOutcome where
  exitCode : Int
  registry : Registry
  deleteCalls : List String
  messages : List String
deriving Repr, DecidableEq

/-- The destroy-all loop (src/main.py:541-542): `for name in
list(instances.keys()): destroy_server(name)`; each iteration reloads and
rewrites the Registry. -/
def destroyAllLoop (deleteRc : String → Int) :
    List String → Registry → Registry × List String
  | [], reg => (reg, [])
  | n :: rest, reg =>
    let d := destroy_server reg (deleteRc n) n
    let (reg', calls) := destroyAllLoop deleteRc rest d.registry
    (reg', n :: calls)

/-- `cmd_destroy` (src/main.py:533-568).  `deleteRc` gives the exit code of
the provider delete call for each name; `name?` is the positional argument
(`None` when absent; Python tests it with `if args.name:` so `""` is also
falsy); `all` is the `--all` flag. -/
def cmd_destroy (reg : Registry) (deleteRc : String → Int)
    (name? : Option String) (all : Bool) : DestroyOutcome :=
  if all then
    if reg.isEmpty then
      { exitCode := 0, registry := reg, deleteCalls := [],
        messages := ["No instances to destroy."] }
    else
      let (reg', calls) := destroyAllLoop deleteRc (reg.map Prod.fst) reg
      { exitCode := 0, registry := reg', deleteCalls := calls, messages := [] }
  else if optStrTruthy name? then
    let n := name?.getD ""
    let d := destroy_server reg (deleteRc n) n
    { exitCode := 0, registry := d.registry, deleteCalls := [n], messages := [] }
  else if reg.isEmpty then
    { exitCode := 0, registry := reg, deleteCalls := [],
      messages := ["No instances to destroy."] }
  else if reg.length = 1 then
    let n := (reg.map Prod.fst).headD ""
    let d := destroy_server reg (deleteRc n) n
    { exitCode := 0, registry := d.registry, deleteCalls := [n], messages := [] }
  else
    { exitCode := 1, registry := reg, deleteCalls := [],
      messages :=
        ("Multiple instances found (" ++ toString reg.length ++ "):")
          :: reg.map (fun p => "  - " ++ p.1 ++ " (" ++ pyStrOpt p.2.ip ++ ")")
          ++ ["", "Please specify which instance to destroy:",
              "  spawnm destroy <name>", "  spawnm destroy --all"] }

-- quick sanity checks of the dict model
example : dictGet? (dictInsert [] "a" (1 : Nat)) "a" = some 1 := by decide
example : dictInsert [("a", 1), ("b", 2)] "a" (3 : Nat) = [("a", 3), ("b", 2)] := by decide

/-! ## List workflow (`cmd_list`, src/main.py:487-530) -/

/-- The fields `cmd_list` keeps per live server
(src/main.py:504-508): each is read with `.get`, so possibly `None`. -/
structure PEntry where
  ip : Option String
  status : Option String
  size : Option String
deriving Repr, DecidableEq, Inhabited

/-- One entry of the JSON array returned by `hcloud server list --output
json`, restricted to the fields `cmd_list` reads.  A missing `name` key is
read as `server.get("name", "")`. -/
structure PRawServer where
  name : Option String
  ip : Option String
  status : Option String
  size : Option String
deriving Repr, DecidableEq

/-- Python `s.startswith(pre)`, on the character sequences of the two
strings. -/
def pyStartsWith (s pre : String) : Bool :=
  pre.data.isPrefixOf s.data

/-- The `hetzner_servers` dict built at src/main.py:498-508: iterate the
parsed servers, keep those whose name starts with `"spawnm-tmp-"`, store
ip/status/size keyed by name (a later duplicate overwrites an earlier
one). -/
def buildHetznerDict (servers : List PRawServer) : List (String × PEntry) :=
  servers.foldl
    (fun d s =>
      let n := s.name.getD ""
      if pyStartsWith n "spawnm-tmp-" then dictInsert d n ⟨s.ip, s.status, s.size⟩
      else d)
    []

/-- The provider-list phase of `cmd_list` (src/main.py:492-508).
`rc` is the exit code of `hcloud server list --output json`; `parsed` is
`some servers` when `json.loads(result.stdout)` succeeds and `none` when it
raises.  On `rc ≠ 0` the dict stays empty; on `rc = 0` the code parses
unconditionally, so malformed output propagates the exception
(`.error ()`). -/
def hetznerList (rc : Int) (parsed : Option (List PRawServer)) :
    Except Unit (List (String × PEntry)) :=
  if rc = 0 then
    match parsed with
    | some servers => .ok (buildHetznerDict servers)
    | none => .error ()
  else
    .ok []

/-- Lexicographic code-point order on strings, i.e. Python `str` comparison
as used by `sorted(all_names)`. -/
def lexLe : List Char → List Char → Bool
  | [], _ => true
  | _ :: _, [] => false
  | c :: cs, d :: ds => if c = d then lexLe cs ds else decide (c.val.toNat < d.val.toNat)

/-- Python `a <= b` on strings. -/
def strLe (a b : String) : Bool :=
  lexLe a.data b.data

/-- Insertion step of the sort modelling Python `sorted`. -/
def insertLe (x : String) : List String → List String
  | [] => [x]
  | y :: ys => if strLe x y then x :: y :: ys else y :: insertLe x ys

/-- Python `sorted` on a collection of strings (insertion sort by
`strLe`). -/
def sortNames : List String → List String
  | [] => []
  | x :: xs => insertLe x (sortNames xs)

/-- One printed line of `cmd_list` (src/main.py:518-530): `live` renders the
provider-reported ip/status/size, `stale` renders the cached ip/size with
the `not found` annotation. -/
inductive ListLine where
  | live (name : String) (e : PEntry)
  | stale (name : String) (i : InstanceInfo)
deriving Repr, DecidableEq

/-- The name a `ListLine` is about. -/
def ListLine.name : ListLine → String
  | .live n _ => n
  | .stale n _ => n

/-- Observable outcome of `cmd_list`: whether `"No instances found."` was
printed, and the per-instance lines in output order. -/
structure ListOutcome where
  noInstancesMsg : Bool
  lines : List ListLine
deriving Repr, DecidableEq

/-- The body of the output loop (src/main.py:518-530): a name found in
`hetzner_servers` is shown live; otherwise it is shown from the cache
(`cached[name]`; in the program this index is only reached for names taken
from the cache, so the `.getD default` branch is dead). -/
def renderLine (hs : List (String × PEntry)) (cached : Registry) (name : String) :
    ListLine :=
  match dictGet? hs name with
  | some e => .live name e
  | none => .stale name ((dictGet? cached name).getD default)

/-- `cmd_list` (src/main.py:487-530): build the provider dict (possibly
raising on malformed JSON), union its names with the cached names
(`set | set`, then `sorted`), and render each name. -/
def cmd_list (cached : Registry) (rc : Int) (parsed : Option (List PRawServer)) :
    Except Unit ListOutcome :=
  match hetznerList rc parsed with
  | .error e => .error e
  | .ok hs =>
    let allNames := sortNames ((hs.map Prod.fst ++ cached.map Prod.fst).dedup)
    if allNames.isEmpty then
      .ok { noInstancesMsg := true, lines := [] }
    else
      .ok { noInstancesMsg := false, lines := allNames.map (renderLine hs cached) }

/-! ## Readiness Prober (`wait_for_ssh`, src/main.py:298-317) -/

/-- `base_ssh_cmd` (src/main.py:272-295); the key path is taken
already expanded (`os.path.expanduser` is an environment lookup). -/
def base_ssh_cmd (ssh_key_file : String) : List String :=
  ["ssh", "-i", ssh_key_file, "-o", "BatchMode=yes", "-o", "StrictHostKeyChecking=no"]

/-- The probe command run by each `wait_for_ssh` attempt
(src/main.py:304-313). -/
def ssh_probe_cmd (ssh_key_file ip : String) : List String :=
  base_ssh_cmd ssh_key_file ++ ["-o", "ConnectTimeout=5", "root@" ++ ip, "true"]

/-- The `wait_for_ssh` polling loop (src/main.py:303-317), with wall-clock
time made explicit: `probe k` tells whether the `k`-th ssh attempt exits 0,
`dur k` how many seconds it takes, `elapsed` is `time.time() - start` at the
loop test.  Each failed attempt is followed by `time.sleep(2)`.  Returns
(result, number of attempts made, elapsed time on return). -/
def wait_for_ssh_loop (probe : Nat → Bool) (dur : Nat → Nat) (timeout : Int)
    (i : Nat) (elapsed : Nat) : Bool × Nat × Nat :=
  if h : (elapsed : Int) < timeout then
    let elapsed' := elapsed + dur i
    if probe i then (true, i + 1, elapsed')
    else wait_for_ssh_loop probe dur timeout (i + 1) (elapsed' + 2)
  else
    (false, i, elapsed)
termination_by (timeout - (elapsed : Int)).toNat
decreasing_by
  omega

/-- `wait_for_ssh` (src/main.py:298-317): run the loop from time zero with
the default timeout of 60 seconds. -/
def wait_for_ssh (probe : Nat → Bool) (dur : Nat → Nat) (timeout : Int := 60) :
    Bool × Nat × Nat :=
  wait_for_ssh_loop probe dur timeout 0 0

/-! ## Workdir Synchronizer (`sync_workdir`, src/main.py:320-345) -/

/-- `Path(workdir).resolve().name`: the base name (last component) of the
resolved local directory, the directory being modelled by its absolute
path components. -/
def pathBaseName (resolvedComponents : List String) : String :=
  resolvedComponents.getLastD ""

/-- Rendering of the resolved absolute path, for the `Syncing ...` line. -/
def renderAbsPath (resolvedComponents : List String) : String :=
  "/" ++ String.intercalate "/" resolvedComponents

/-- Outcome of `sync_workdir`: the returned remote path (`none` on rsync
failure) and the lines printed. -/
structure SyncResult where
  remotePath : Option String
  messages : List String
deriving Repr, DecidableEq

/-- `sync_workdir` (src/main.py:320-345): the remote path is the fixed root
`/root` joined with the local directory base name; `rsyncRc` is the rsync
exit code; on failure return `None` with a warning, never raise. -/
def sync_workdir (workdirComponents : List String) (rsyncRc : Int) : SyncResult :=
  let remote_path := "/root/" ++ pathBaseName workdirComponents
  let syncing := "Syncing " ++ renderAbsPath workdirComponents ++ " to " ++ remote_path ++ "..."
  if rsyncRc = 0 then
    { remotePath := some remote_path
      messages := [syncing, "Synced to " ++ remote_path] }
  else
    { remotePath := none
      messages := [syncing, "Warning: rsync failed"] }

/-! ## Auxiliary definitions used by the theorems -/

/-- Number of bindings of key `k` (a dict invariant holds it at most 1). -/
def countKey {α : Type} (d : List (String × α)) (k : String) : Nat :=
  (d.filter (fun p => p.1 = k)).length

/-- Wall-clock time at the `while` test before attempt `k` of
`wait_for_ssh`, when every earlier attempt failed: each failed attempt `j`
contributes its own duration plus the fixed `time.sleep(2)`. -/
def elapsedBefore (dur : Nat → Nat) : Nat → Nat
  | 0 => 0
  | k + 1 => elapsedBefore dur k + dur k + 2

/-- A concrete instance record used by witnesses and counterexamples. -/
def egInfo : InstanceInfo :=
  { name := "spawnm-tmp-ab12", size := "cx23", image := "ubuntu-24.04",
    location := "fsn1", ip := some "203.0.113.5",
    root_password := some "s3cr3t", ssh_key := some "mykey" }

/-- A second concrete instance record (no ip) used by witnesses. -/
def egInfoNoIp : InstanceInfo :=
  { name := "spawnm-tmp-cd34", size := "cx33", image := "ubuntu-24.04",
    location := "nbg1", ip := none, root_password := none, ssh_key := none }

/-! ## Dictionary lemmas -/

theorem dictGet?_dictErase {α : Type} (d : List (String × α)) (k k' : String) :
    dictGet? (dictErase d k) k' = if k' = k then none else dictGet? d k' := by
  induction d with
  | nil => simp [dictErase, dictGet?]
  | cons p rest ih =>
    obtain ⟨k1, v⟩ := p
    by_cases h1 : k1 = k <;> by_cases h2 : k1 = k' <;>
      simp_all [dictErase, dictGet?, List.filter_cons]

theorem dictGet?_dictInsert {α : Type} (d : List (String × α)) (k k' : String) (v : α) :
    dictGet? (dictInsert d k v) k' = if k' = k then some v else dictGet? d k' := by
  induction d with
  | nil => simp [dictInsert, dictGet?, eq_comm]
  | cons p rest ih =>
    obtain ⟨k1, v1⟩ := p
    by_cases h1 : k1 = k <;> by_cases h2 : k1 = k' <;>
      simp_all [dictInsert, dictGet?, eq_comm]

theorem countKey_dictInsert {α : Type} (d : List (String × α)) (k : String) (v : α) :
    countKey (dictInsert d k v) k = max 1 (countKey d k) := by
  induction d with
  | nil => simp [dictInsert, countKey]
  | cons p rest ih =>
    obtain ⟨k1, v1⟩ := p
    by_cases h1 : k1 = k
    · subst h1
      simp [dictInsert, countKey, List.filter_cons]
    · simp only [dictInsert, if_neg h1, countKey, List.filter_cons] at *
      simp [h1, ih]

theorem dictGet?_isSome_of_mem_keys {α : Type} (d : List (String × α)) (k : String)
    (h : k ∈ d.map Prod.fst) : (dictGet? d k).isSome := by
  induction d with
  | nil => simp at h
  | cons p rest ih =>
    obtain ⟨k1, v1⟩ := p
    by_cases h1 : k1 = k
    · simp [dictGet?, h1]
    · have h2 : k ∈ rest.map Prod.fst := by
        simp only [List.map_cons, List.mem_cons] at h
        rcases h with h | h
        · exact absurd h.symm h1
        · exact h
      simpa [dictGet?, h1] using ih h2

theorem mem_keys_of_dictGet?_eq_some {α : Type} (d : List (String × α)) (k : String)
    (v : α) (h : dictGet? d k = some v) : k ∈ d.map Prod.fst := by
  induction d with
  | nil => simp [dictGet?] at h
  | cons p rest ih =>
    obtain ⟨k1, v1⟩ := p
    by_cases h1 : k1 = k <;> simp_all [dictGet?]

/-! ## Claims -/

/-- C9: `remove_instance` on an absent name writes nothing and leaves the
mapping unchanged; on a present name it writes, the entry for that name is
gone, and every other key still maps to the same value. -/
theorem C9_remove_instance_frame (reg : Registry) (name : String) :
    (dictGet? reg name = none →
      remove_instance reg name = { registry := reg, wrote := false }) ∧
    (∀ info, dictGet? reg name = some info →
      (remove_instance reg name).wrote = true ∧
      dictGet? (remove_instance reg name).registry name = none ∧
      ∀ k, k ≠ name →
        dictGet? (remove_instance reg name).registry k = dictGet? reg k) := by
  constructor
  · intro h
    simp [remove_instance, h]
  · intro info h
    refine ⟨by simp [remove_instance, h], ?_, ?_⟩
    · simp [remove_instance, h, dictGet?_dictErase]
    · intro k hk
      simp [remove_instance, h, dictGet?_dictErase, hk]

/-- Witness for C9 at concrete registries. -/
theorem C9_remove_instance_frame_witness :
    remove_instance [("spawnm-tmp-ab12", egInfo)] "spawnm-tmp-zz99"
        = { registry := [("spawnm-tmp-ab12", egInfo)], wrote := false } ∧
    dictGet? (remove_instance [("spawnm-tmp-ab12", egInfo)] "spawnm-tmp-ab12").registry
        "spawnm-tmp-ab12" = none := by
  constructor
  · exact (C9_remove_instance_frame [("spawnm-tmp-ab12", egInfo)] "spawnm-tmp-zz99").1
      (by decide)
  · exact (((C9_remove_instance_frame [("spawnm-tmp-ab12", egInfo)] "spawnm-tmp-ab12").2
      egInfo (by decide)).2).1

/-- C8: `sync_workdir` computes the remote path as `/root` joined with the
local directory base name and returns it on rsync success; on rsync failure
it returns `None` and prints a warning (the function is total: it never
raises). -/
theorem C8_sync_workdir_spec (comps : List String) (rc : Int) :
    (rc = 0 →
      (sync_workdir comps rc).remotePath = some ("/root/" ++ pathBaseName comps)) ∧
    (rc ≠ 0 →
      (sync_workdir comps rc).remotePath = none ∧
      "Warning: rsync failed" ∈ (sync_workdir comps rc).messages) := by
  constructor
  · intro h
    simp [sync_workdir, h]
  · intro h
    simp [sync_workdir, h]

/-- Witness for C8 on a concrete directory, succeeding and failing. -/
theorem C8_sync_workdir_spec_witness :
    (sync_workdir ["home", "user", "proj"] 0).remotePath = some "/root/proj" ∧
    (sync_workdir ["home", "user", "proj"] 23).remotePath = none := by
  constructor
  · exact (C8_sync_workdir_spec ["home", "user", "proj"] 0).1 rfl
  · exact ((C8_sync_workdir_spec ["home", "user", "proj"] 23).2 (by decide)).1

/-- C10: `wait_for_ssh` with `timeout ≤ 0` makes zero probe attempts and
returns false with no time spent (the `while time.time() - start < timeout`
test fails immediately). -/
theorem C10_wait_for_ssh_nonpos_timeout (probe : Nat → Bool) (dur : Nat → Nat)
    (timeout : Int) (h : timeout ≤ 0) :
    wait_for_ssh probe dur timeout = (false, 0, 0) := by
  unfold wait_for_ssh wait_for_ssh_loop
  split
  · next h' => exact absurd h' (by omega)
  · rfl

/-- Witness for C10 at `timeout = 0` and a probe that would always
succeed. -/
theorem C10_wait_for_ssh_nonpos_timeout_witness :
    wait_for_ssh (fun _ => true) (fun _ => 1) 0 = (false, 0, 0) :=
  C10_wait_for_ssh_nonpos_timeout (fun _ => true) (fun _ => 1) 0 (by decide)

/-- C2: `cmd_destroy` with no name and no `--all` flag: an empty Registry
reports and exits 0 with zero delete calls; a single entry gets exactly one
delete call on its name (the implicit target); two or more entries mean
zero provider delete calls, a listing of the tracked names with their
cached ip, a non-zero exit, and an unchanged Registry. -/
theorem C2_destroy_no_selector (reg : Registry) (deleteRc : String → Int) :
    (reg = [] →
      cmd_destroy reg deleteRc none false =
        { exitCode := 0, registry := [], deleteCalls := [],
          messages := ["No instances to destroy."] }) ∧
    (∀ n info, reg = [(n, info)] →
      (cmd_destroy reg deleteRc none false).deleteCalls = [n] ∧
      (cmd_destroy reg deleteRc none false).registry =
        (destroy_server reg (deleteRc n) n).registry ∧
      (cmd_destroy reg deleteRc none false).exitCode = 0) ∧
    (2 ≤ reg.length →
      (cmd_destroy reg deleteRc none false).deleteCalls = [] ∧
      (cmd_destroy reg deleteRc none false).exitCode = 1 ∧
      (cmd_destroy reg deleteRc none false).registry = reg ∧
      ∀ p ∈ reg,
        ("  - " ++ p.1 ++ " (" ++ pyStrOpt p.2.ip ++ ")")
          ∈ (cmd_destroy reg deleteRc none false).messages) := by
  refine ⟨?_, ?_, ?_⟩
  · intro h
    subst h
    rfl
  · intro n info h
    subst h
    simp [cmd_destroy, optStrTruthy]
  · intro h
    have hne : ¬ reg.isEmpty := by
      cases reg <;> simp_all
    have hlen : ¬ reg.length = 1 := by omega
    refine ⟨?_, ?_, ?_, ?_⟩ <;>
      simp [cmd_destroy, optStrTruthy, hne, hlen]
    intro a b hab
    exact Or.inr (Or.inl ⟨a, b, hab, rfl⟩)

/-- Witness for C2 at concrete registries of size 0, 1, and 2. -/
theorem C2_destroy_no_selector_witness :
    cmd_destroy [] (fun _ => 0) none false =
      { exitCode := 0, registry := [], deleteCalls := [],
        messages := ["No instances to destroy."] } ∧
    (cmd_destroy [("spawnm-tmp-ab12", egInfo)] (fun _ => 0) none false).deleteCalls =
      ["spawnm-tmp-ab12"] ∧
    (cmd_destroy [("spawnm-tmp-ab12", egInfo), ("spawnm-tmp-cd34", egInfoNoIp)]
        (fun _ => 0) none false).deleteCalls = [] ∧
    (cmd_destroy [("spawnm-tmp-ab12", egInfo), ("spawnm-tmp-cd34", egInfoNoIp)]
        (fun _ => 0) none false).exitCode = 1 := by
  refine ⟨(C2_destroy_no_selector [] (fun _ => 0)).1 rfl, ?_, ?_, ?_⟩
  · exact (((C2_destroy_no_selector [("spawnm-tmp-ab12", egInfo)] (fun _ => 0)).2.1
      "spawnm-tmp-ab12" egInfo rfl)).1
  · exact ((C2_destroy_no_selector
      [("spawnm-tmp-ab12", egInfo), ("spawnm-tmp-cd34", egInfoNoIp)] (fun _ => 0)).2.2
      (by decide)).1
  · exact ((C2_destroy_no_selector
      [("spawnm-tmp-ab12", egInfo), ("spawnm-tmp-cd34", egInfoNoIp)] (fun _ => 0)).2.2
      (by decide)).2.1

/-- C4: provider/Registry consistency.  A failed provider create exits with
the provider's (non-zero) code and writes nothing; a successful create adds
the record under the requested name; a successful delete removes the entry
for that name; a failed delete leaves the Registry unchanged. -/
theorem C4_registry_consistency (reg : Registry) (res : ProviderCreateResult)
    (name size image location : String) (ssh_key_name : Option String)
    (do_ssh : Bool) (workdir : Option String) (n : String) (deleteRc : Int) :
    (res.returncode ≠ 0 →
      create_server reg res name size image location ssh_key_name do_ssh workdir =
        .error res.returncode ∧
      registryAfterCreate reg res name size image location ssh_key_name do_ssh workdir =
        reg) ∧
    (res.returncode = 0 →
      dictGet?
          (registryAfterCreate reg res name size image location ssh_key_name do_ssh workdir)
          name =
        some { name := name, size := size, image := image, location := location,
               ip := res.ip, root_password := res.root_password,
               ssh_key := ssh_key_name }) ∧
    (deleteRc = 0 →
      dictGet? (destroy_server reg deleteRc n).registry n = none ∧
      ∀ k, k ≠ n →
        dictGet? (destroy_server reg deleteRc n).registry k = dictGet? reg k) ∧
    (deleteRc ≠ 0 → (destroy_server reg deleteRc n).registry = reg) := by
  refine ⟨?_, ?_, ?_, ?_⟩
  · intro h
    constructor
    · simp [create_server, h]
    · simp [registryAfterCreate, create_server, h]
  · intro h
    simp [registryAfterCreate, create_server, h, add_instance, dictGet?_dictInsert]
  · intro h
    subst h
    constructor
    · simp [destroy_server, remove_instance]
      split
      · simp [dictGet?_dictErase]
      · next hnone => simpa using hnone
    · intro k hk
      simp [destroy_server, remove_instance]
      split
      · simp [dictGet?_dictErase, hk]
      · rfl
  · intro h
    simp [destroy_server, h]

/-- Witness for C4 at concrete create and delete outcomes. -/
theorem C4_registry_consistency_witness :
    create_server [] { returncode := 3, ip := none, root_password := none }
        "spawnm-tmp-ab12" "cx23" "ubuntu-24.04" "fsn1" (some "mykey") false none =
      .error 3 ∧
    dictGet?
        (registryAfterCreate []
          { returncode := 0, ip := some "203.0.113.5", root_password := some "s3cr3t" }
          "spawnm-tmp-ab12" "cx23" "ubuntu-24.04" "fsn1" (some "mykey") false none)
        "spawnm-tmp-ab12" = some egInfo ∧
    dictGet? (destroy_server [("spawnm-tmp-ab12", egInfo)] 0 "spawnm-tmp-ab12").registry
        "spawnm-tmp-ab12" = none ∧
    (destroy_server [("spawnm-tmp-ab12", egInfo)] 7 "spawnm-tmp-ab12").registry =
      [("spawnm-tmp-ab12", egInfo)] := by
  refine ⟨?_, ?_, ?_, ?_⟩
  · exact ((C4_registry_consistency []
      { returncode := 3, ip := none, root_password := none }
      "spawnm-tmp-ab12" "cx23" "ubuntu-24.04" "fsn1" (some "mykey") false none
      "x" 0).1 (by decide)).1
  · have h := (C4_registry_consistency []
      { returncode := 0, ip := some "203.0.113.5", root_password := some "s3cr3t" }
      "spawnm-tmp-ab12" "cx23" "ubuntu-24.04" "fsn1" (some "mykey") false none
      "x" 0).2.1 rfl
    simpa [egInfo] using h
  · exact ((C4_registry_consistency [("spawnm-tmp-ab12", egInfo)]
      { returncode := 0, ip := none, root_password := none }
      "spawnm-tmp-ab12" "cx23" "ubuntu-24.04" "fsn1" none false none
      "spawnm-tmp-ab12" 0).2.2.1 rfl).1
  · exact (C4_registry_consistency [("spawnm-tmp-ab12", egInfo)]
      { returncode := 0, ip := none, root_password := none }
      "spawnm-tmp-ab12" "cx23" "ubuntu-24.04" "fsn1" none false none
      "spawnm-tmp-ab12" 7).2.2.2 (by decide)

/-- C1 counterexample: a degraded creation (provider exit 0, no ip) with an
interactive session and a directory sync requested does NOT skip the
Workdir Synchronizer or the Session Launcher — only the Readiness Prober is
gated on the ip (src/main.py:433 vs. 441 and 446). -/
theorem C1_counterexample :
    create_server [] { returncode := 0, ip := none, root_password := some "s3cr3t" }
        "spawnm-tmp-ab12" "cx23" "ubuntu-24.04" "fsn1" (some "mykey") true (some "/w") =
      .ok
        { registry :=
            [("spawnm-tmp-ab12",
              { name := "spawnm-tmp-ab12", size := "cx23", image := "ubuntu-24.04",
                location := "fsn1", ip := none, root_password := some "s3cr3t",
                ssh_key := some "mykey" })]
          proberCalled := false
          syncCalled := true
          launcherCalled := true } := by
  rfl

/-- C1 (amended): a Create whose provider call succeeds with no ip writes
exactly one Registry entry under the requested name and skips the Readiness
Prober without error; but the Workdir Synchronizer still runs whenever a
directory sync was requested and the Session Launcher still runs whenever
an interactive session was requested. -/
theorem C1_degraded_create (reg : Registry) (res : ProviderCreateResult)
    (name size image location : String) (ssh_key_name : Option String)
    (do_ssh : Bool) (workdir : Option String)
    (hrc : res.returncode = 0) (hip : res.ip = none)
    (hcount : countKey reg name ≤ 1) :
    ∃ o, create_server reg res name size image location ssh_key_name do_ssh workdir =
        .ok o ∧
      countKey o.registry name = 1 ∧
      dictGet? o.registry name =
        some { name := name, size := size, image := image, location := location,
               ip := none, root_password := res.root_password,
               ssh_key := ssh_key_name } ∧
      o.proberCalled = false ∧
      o.syncCalled = optStrTruthy workdir ∧
      o.launcherCalled = do_ssh := by
  refine
    ⟨{ registry :=
         add_instance reg name
           { name := name, size := size, image := image, location := location,
             ip := res.ip, root_password := res.root_password,
             ssh_key := ssh_key_name }
       proberCalled := optStrTruthy res.ip && (do_ssh || optStrTruthy workdir)
       syncCalled := optStrTruthy workdir
       launcherCalled := do_ssh }, ?_, ?_, ?_, ?_, rfl, rfl⟩
  · simp [create_server, hrc]
  · simp only [add_instance, countKey_dictInsert]
    omega
  · simp [add_instance, dictGet?_dictInsert, hip]
  · simp [hip, optStrTruthy]

/-- Witness for C1 (amended) at a concrete degraded creation. -/
theorem C1_degraded_create_witness :
    ∃ o, create_server [("spawnm-tmp-cd34", egInfoNoIp)]
        { returncode := 0, ip := none, root_password := some "s3cr3t" }
        "spawnm-tmp-ab12" "cx23" "ubuntu-24.04" "fsn1" (some "mykey") false
        (some "/w") = .ok o ∧
      countKey o.registry "spawnm-tmp-ab12" = 1 ∧
      dictGet? o.registry "spawnm-tmp-ab12" =
        some { name := "spawnm-tmp-ab12", size := "cx23", image := "ubuntu-24.04",
               location := "fsn1", ip := none, root_password := some "s3cr3t",
               ssh_key := some "mykey" } ∧
      o.proberCalled = false ∧
      o.syncCalled = optStrTruthy (some "/w") ∧
      o.launcherCalled = false :=
  C1_degraded_create [("spawnm-tmp-cd34", egInfoNoIp)]
    { returncode := 0, ip := none, root_password := some "s3cr3t" }
    "spawnm-tmp-ab12" "cx23" "ubuntu-24.04" "fsn1" (some "mykey") false (some "/w")
    rfl rfl (by decide)

/-- The destroy-all loop attempts every name it is given, in order. -/
theorem destroyAllLoop_calls (deleteRc : String → Int) (names : List String) :
    ∀ reg, (destroyAllLoop deleteRc names reg).2 = names := by
  induction names with
  | nil => intro reg; rfl
  | cons n rest ih =>
    intro reg
    simp [destroyAllLoop, ih]

/-- C3 counterexample: a named Destroy whose provider delete call fails
with exit code 1 still ends the process with exit status 0 (`cmd_destroy`
discards the value returned by `destroy_server`, src/main.py:546); and a
Destroy-all in which the first of two delete calls fails with code 2 also
exits 0 instead of 2. -/
theorem C3_counterexample :
    (cmd_destroy [("spawnm-tmp-ab12", egInfo)] (fun _ => 1)
        (some "spawnm-tmp-ab12") false).exitCode = 0 ∧
    (cmd_destroy [("spawnm-tmp-ab12", egInfo), ("spawnm-tmp-cd34", egInfoNoIp)]
        (fun n => if n = "spawnm-tmp-ab12" then 2 else 0) none true).exitCode = 0 ∧
    (cmd_destroy [("spawnm-tmp-ab12", egInfo), ("spawnm-tmp-cd34", egInfoNoIp)]
        (fun n => if n = "spawnm-tmp-ab12" then 2 else 0) none true).deleteCalls =
      ["spawnm-tmp-ab12", "spawnm-tmp-cd34"] := by
  refine ⟨rfl, rfl, rfl⟩

/-- C3 (amended): a named Destroy performs exactly one provider delete call
and exits 0 regardless of that call's exit status (the status returned by
`destroy_server` is discarded); Destroy-all attempts every tracked name but
likewise always exits 0, even when delete calls fail. -/
theorem C3_destroy_exit_status (reg : Registry) (deleteRc : String → Int)
    (n : String) (hn : n ≠ "") :
    (cmd_destroy reg deleteRc (some n) false).exitCode = 0 ∧
    (cmd_destroy reg deleteRc (some n) false).deleteCalls = [n] ∧
    (reg ≠ [] →
      (cmd_destroy reg deleteRc none true).deleteCalls = reg.map Prod.fst ∧
      (cmd_destroy reg deleteRc none true).exitCode = 0) := by
  refine ⟨?_, ?_, ?_⟩
  · simp [cmd_destroy, optStrTruthy, hn]
  · simp [cmd_destroy, optStrTruthy, hn]
  · intro hne
    have hne2 : ¬ reg.isEmpty := by cases reg <;> simp_all
    constructor
    · simp [cmd_destroy, hne2, destroyAllLoop_calls]
    · simp [cmd_destroy, hne2]

/-- Witness for C3 (amended) with a failing delete on a concrete
registry. -/
theorem C3_destroy_exit_status_witness :
    (cmd_destroy [("spawnm-tmp-ab12", egInfo)] (fun _ => 5)
        (some "spawnm-tmp-ab12") false).exitCode = 0 ∧
    (cmd_destroy [("spawnm-tmp-ab12", egInfo)] (fun _ => 5) none true).deleteCalls =
      ["spawnm-tmp-ab12"] := by
  constructor
  · exact (C3_destroy_exit_status [("spawnm-tmp-ab12", egInfo)] (fun _ => 5)
      "spawnm-tmp-ab12" (by decide)).1
  · exact ((C3_destroy_exit_status [("spawnm-tmp-ab12", egInfo)] (fun _ => 5)
      "spawnm-tmp-ab12" (by decide)).2.2 (by decide)).1

/-- C5 counterexample: when the provider tool exits 0 but its output is
malformed, `json.loads` raises and `cmd_list` crashes instead of treating
the server sequence as empty (src/main.py:500 has no exception
handling). -/
theorem C5_counterexample :
    cmd_list [] 0 none = .error () := by
  rfl

/-- C5 (amended): if the provider tool is unreachable (non-zero exit), the
provider-reported server sequence is treated as empty and List completes
without raising; but if the tool exits 0 with malformed output, the JSON
parse raises and List crashes. -/
theorem C5_list_never_crashes (cached : Registry) (rc : Int)
    (parsed : Option (List PRawServer)) :
    (rc ≠ 0 →
      hetznerList rc parsed = .ok [] ∧ ∃ o, cmd_list cached rc parsed = .ok o) ∧
    (rc = 0 → parsed = none → cmd_list cached rc parsed = .error ()) := by
  constructor
  · intro h
    have h1 : hetznerList rc parsed = .ok [] := by simp [hetznerList, h]
    refine ⟨h1, ?_⟩
    simp only [cmd_list, h1]
    split <;> exact ⟨_, rfl⟩
  · intro h hp
    subst h
    subst hp
    rfl

/-- Witness for C5 (amended) at a concrete unreachable provider. -/
theorem C5_list_never_crashes_witness :
    hetznerList 1 none = .ok [] ∧
    ∃ o, cmd_list [("spawnm-tmp-ab12", egInfo)] 1 none = .ok o :=
  (C5_list_never_crashes [("spawnm-tmp-ab12", egInfo)] 1 none).1 (by decide)

theorem mem_insertLe (x y : String) (l : List String) :
    x ∈ insertLe y l ↔ x = y ∨ x ∈ l := by
  induction l with
  | nil => simp [insertLe]
  | cons z zs ih =>
    simp only [insertLe]
    split
    · simp [List.mem_cons]
    · simp only [List.mem_cons, ih]
      tauto

theorem mem_sortNames (x : String) (l : List String) :
    x ∈ sortNames l ↔ x ∈ l := by
  induction l with
  | nil => simp [sortNames]
  | cons y ys ih => simp [sortNames, mem_insertLe, ih]

theorem insertLe_ne_nil (y : String) (l : List String) : insertLe y l ≠ [] := by
  cases l with
  | nil => simp [insertLe]
  | cons z zs =>
    simp only [insertLe]
    split <;> simp

theorem sortNames_eq_nil_iff (l : List String) : sortNames l = [] ↔ l = [] := by
  cases l with
  | nil => simp [sortNames]
  | cons y ys => simp [sortNames, insertLe_ne_nil]

theorem name_renderLine (hs : List (String × PEntry)) (cached : Registry)
    (nm : String) : ListLine.name (renderLine hs cached nm) = nm := by
  cases h : dictGet? hs nm <;> simp [renderLine, h, ListLine.name]

/-- C6: List reconciliation.  For a List invocation whose provider call
parses (`.ok o`): the set of output names is exactly the union of the
(prefix-filtered) provider-reported names and the cached Registry names;
every `live` line carries the provider entry of its name (covering names
reported by the provider, whether or not cached) and every `stale`
(not-found) line carries the cached record of a name the provider does not
report; and `"No instances found."` is printed exactly when the union is
empty. -/
theorem C6_list_reconciliation (cached : Registry) (servers : List PRawServer)
    (o : ListOutcome) (ho : cmd_list cached 0 (some servers) = .ok o) :
    (∀ nm, (∃ l ∈ o.lines, ListLine.name l = nm) ↔
      (nm ∈ (buildHetznerDict servers).map Prod.fst ∨ nm ∈ cached.map Prod.fst)) ∧
    (∀ l ∈ o.lines,
      (∀ nm e, l = .live nm e → dictGet? (buildHetznerDict servers) nm = some e) ∧
      (∀ nm i, l = .stale nm i →
        dictGet? (buildHetznerDict servers) nm = none ∧
        dictGet? cached nm = some i)) ∧
    (o.noInstancesMsg = true ↔
      (buildHetznerDict servers = [] ∧ cached = [])) := by
  have hcl : cmd_list cached 0 (some servers) =
      (let hs := buildHetznerDict servers
       let allNames := sortNames ((hs.map Prod.fst ++ cached.map Prod.fst).dedup)
       if allNames.isEmpty then
         .ok { noInstancesMsg := true, lines := [] }
       else
         .ok { noInstancesMsg := false,
               lines := allNames.map (renderLine hs cached) }) := rfl
  simp only at hcl
  by_cases hemp :
      (sortNames (((buildHetznerDict servers).map Prod.fst
        ++ cached.map Prod.fst).dedup)).isEmpty
  · have hnil :
        ((buildHetznerDict servers).map Prod.fst ++ cached.map Prod.fst) = [] := by
      have h1 := (sortNames_eq_nil_iff
        (((buildHetznerDict servers).map Prod.fst ++ cached.map Prod.fst).dedup)).mp
        (List.isEmpty_iff.mp hemp)
      exact (List.dedup_eq_nil _).mp h1
    have hhs : (buildHetznerDict servers).map Prod.fst = [] :=
      (List.append_eq_nil.mp hnil).1
    have hch : cached.map Prod.fst = [] := (List.append_eq_nil.mp hnil).2
    have ho2 : o = { noInstancesMsg := true, lines := [] } := by
      rw [hcl, if_pos hemp] at ho
      exact (Except.ok.injEq _ _).mp ho.symm ▸ rfl
    subst ho2
    refine ⟨?_, ?_, ?_⟩
    · intro nm
      simp [hhs, hch]
    · intro l hl
      simp at hl
    · simp [List.map_eq_nil_iff.mp hhs, List.map_eq_nil_iff.mp hch]
  · have ho2 : o =
        { noInstancesMsg := false,
          lines := (sortNames (((buildHetznerDict servers).map Prod.fst
            ++ cached.map Prod.fst).dedup)).map
              (renderLine (buildHetznerDict servers) cached) } := by
      rw [hcl, if_neg hemp] at ho
      exact (Except.ok.injEq _ _).mp ho.symm ▸ rfl
    subst ho2
    refine ⟨?_, ?_, ?_⟩
    · intro nm
      constructor
      · rintro ⟨l, hl, hname⟩
        obtain ⟨a, ha, rfl⟩ := List.mem_map.mp hl
        rw [name_renderLine] at hname
        subst hname
        have := (mem_sortNames _ _).mp ha
        rw [List.mem_dedup, List.mem_append] at this
        exact this
      · intro hmem
        have hin : nm ∈ sortNames (((buildHetznerDict servers).map Prod.fst
            ++ cached.map Prod.fst).dedup) := by
          rw [mem_sortNames, List.mem_dedup, List.mem_append]
          exact hmem
        exact ⟨renderLine (buildHetznerDict servers) cached nm,
          List.mem_map.mpr ⟨nm, hin, rfl⟩, name_renderLine _ _ _⟩
    · intro l hl
      obtain ⟨a, ha, rfl⟩ := List.mem_map.mp hl
      constructor
      · intro nm e heq
        cases hget : dictGet? (buildHetznerDict servers) a with
        | some e' =>
          rw [renderLine, hget] at heq
          simp only [ListLine.live.injEq] at heq
          obtain ⟨rfl, rfl⟩ := heq
          exact hget
        | none =>
          rw [renderLine, hget] at heq
          simp at heq
      · intro nm i heq
        cases hget : dictGet? (buildHetznerDict servers) a with
        | some e' =>
          rw [renderLine, hget] at heq
          simp at heq
        | none =>
          rw [renderLine, hget] at heq
          simp only [ListLine.stale.injEq] at heq
          obtain ⟨rfl, rfl⟩ := heq
          have hmem := (mem_sortNames _ _).mp ha
          rw [List.mem_dedup, List.mem_append] at hmem
          have hcmem : a ∈ cached.map Prod.fst := by
            rcases hmem with h | h
            · have := dictGet?_isSome_of_mem_keys _ _ h
              rw [hget] at this
              simp at this
            · exact h
          have hsome := dictGet?_isSome_of_mem_keys _ _ hcmem
          obtain ⟨v, hv⟩ := Option.isSome_iff_exists.mp hsome
          exact ⟨hget, by simp [hv]⟩
    · constructor
      · intro h
        simp at h
      · rintro ⟨h1, h2⟩
        exfalso
        apply hemp
        rw [h1, h2]
        rfl

/-- Witness for C6 at one provider-only name and one registry-only name. -/
theorem C6_list_reconciliation_witness :
    (∃ l ∈ [ListLine.live "spawnm-tmp-ab12"
              { ip := some "203.0.113.5", status := some "running",
                size := some "cx23" },
            ListLine.stale "spawnm-tmp-cd34" egInfoNoIp],
       ListLine.name l = "spawnm-tmp-cd34") ∧
    (∃ l ∈ [ListLine.live "spawnm-tmp-ab12"
              { ip := some "203.0.113.5", status := some "running",
                size := some "cx23" },
            ListLine.stale "spawnm-tmp-cd34" egInfoNoIp],
       ListLine.name l = "spawnm-tmp-ab12") := by
  have h := C6_list_reconciliation [("spawnm-tmp-cd34", egInfoNoIp)]
    [{ name := some "spawnm-tmp-ab12", ip := some "203.0.113.5",
       status := some "running", size := some "cx23" }]
    { noInstancesMsg := false,
      lines := [ListLine.live "spawnm-tmp-ab12"
                  { ip := some "203.0.113.5", status := some "running",
                    size := some "cx23" },
                ListLine.stale "spawnm-tmp-cd34" egInfoNoIp] }
    rfl
  exact ⟨(h.1 "spawnm-tmp-cd34").mpr (Or.inr (by decide)),
    (h.1 "spawnm-tmp-ab12").mpr (Or.inl (by decide))⟩

/-! ## Readiness Prober lemmas -/

/-- One unfolding of the `wait_for_ssh` loop. -/
theorem wait_for_ssh_loop_eq (probe : Nat → Bool) (dur : Nat → Nat) (timeout : Int)
    (i elapsed : Nat) :
    wait_for_ssh_loop probe dur timeout i elapsed =
      if (elapsed : Int) < timeout then
        (if probe i then (true, i + 1, elapsed + dur i)
         else wait_for_ssh_loop probe dur timeout (i + 1) (elapsed + dur i + 2))
      else (false, i, elapsed) := by
  conv_lhs => rw [wait_for_ssh_loop.eq_def]
  by_cases h : ((elapsed : Nat) : Int) < timeout <;> simp [h]

/-- Shifting the window of `elapsedBefore` by one attempt. -/
theorem elapsedBefore_dur_shift (dur : Nat → Nat) (i k : Nat) :
    elapsedBefore (fun j => dur (i + j)) (k + 1) =
      dur i + 2 + elapsedBefore (fun j => dur ((i + 1) + j)) k := by
  induction k with
  | zero => simp [elapsedBefore]
  | succ k ih =>
    have h1 : elapsedBefore (fun j => dur (i + j)) (k + 2) =
        elapsedBefore (fun j => dur (i + j)) (k + 1) + dur (i + (k + 1)) + 2 := rfl
    have h2 : elapsedBefore (fun j => dur ((i + 1) + j)) (k + 1) =
        elapsedBefore (fun j => dur ((i + 1) + j)) k + dur ((i + 1) + k) + 2 := rfl
    have h3 : i + (k + 1) = (i + 1) + k := by omega
    rw [h1, ih, h2, h3]
    omega

/-- The loop returns `false` only after the elapsed time has reached the
timeout (the `while` test failed). -/
theorem wait_for_ssh_loop_false_elapsed (probe : Nat → Bool) (dur : Nat → Nat)
    (timeout : Int) (i elapsed : Nat)
    (h : (wait_for_ssh_loop probe dur timeout i elapsed).1 = false) :
    timeout ≤ ((wait_for_ssh_loop probe dur timeout i elapsed).2.2 : Int) := by
  rw [wait_for_ssh_loop_eq] at h ⊢
  by_cases h1 : (elapsed : Int) < timeout
  · rw [if_pos h1] at h ⊢
    by_cases h2 : probe i
    · rw [if_pos h2] at h
      simp at h
    · rw [if_neg h2] at h ⊢
      exact wait_for_ssh_loop_false_elapsed probe dur timeout (i + 1)
        (elapsed + dur i + 2) h
  · rw [if_neg h1]
    simp only []
    omega
termination_by (timeout - (elapsed : Int)).toNat
decreasing_by omega

/-- The loop returns `true` exactly when some attempt succeeds while every
earlier attempt failed and the elapsed time at its `while` test was still
below the timeout. -/
theorem wait_for_ssh_loop_true_iff (probe : Nat → Bool) (dur : Nat → Nat)
    (timeout : Int) (i elapsed : Nat) :
    (wait_for_ssh_loop probe dur timeout i elapsed).1 = true ↔
      ∃ k, (∀ j, j < k → probe (i + j) = false) ∧ probe (i + k) = true ∧
        ((elapsed : Int) + (elapsedBefore (fun j => dur (i + j)) k : Int) < timeout) := by
  rw [wait_for_ssh_loop_eq]
  by_cases h1 : (elapsed : Int) < timeout
  · rw [if_pos h1]
    by_cases h2 : probe i
    · rw [if_pos h2]
      constructor
      · intro _
        exact ⟨0, fun j hj => absurd hj (Nat.not_lt_zero j), by simpa using h2,
          by simpa [elapsedBefore] using h1⟩
      · intro _
        rfl
    · have h2' : probe i = false := by simpa using h2
      rw [if_neg h2]
      rw [wait_for_ssh_loop_true_iff probe dur timeout (i + 1) (elapsed + dur i + 2)]
      constructor
      · rintro ⟨k, hk1, hk2, hk3⟩
        refine ⟨k + 1, ?_, ?_, ?_⟩
        · intro j hj
          cases j with
          | zero => simpa using h2'
          | succ j' =>
            have hx := hk1 j' (by omega)
            have hy : i + (j' + 1) = (i + 1) + j' := by omega
            rw [hy]
            exact hx
        · have hy : i + (k + 1) = (i + 1) + k := by omega
          rw [hy]
          exact hk2
        · rw [elapsedBefore_dur_shift]
          push_cast at hk3 ⊢
          omega
      · rintro ⟨k, hk1, hk2, hk3⟩
        cases k with
        | zero =>
          exfalso
          have := hk2
          simp at this
          rw [h2'] at this
          exact Bool.false_ne_true this
        | succ k' =>
          refine ⟨k', ?_, ?_, ?_⟩
          · intro j hj
            have hx := hk1 (j + 1) (by omega)
            have hy : i + (j + 1) = (i + 1) + j := by omega
            rw [hy] at hx
            exact hx
          · have hy : i + (k' + 1) = (i + 1) + k' := by omega
            rw [hy] at hk2
            exact hk2
          · rw [elapsedBefore_dur_shift] at hk3
            push_cast at hk3 ⊢
            omega
  · rw [if_neg h1]
    constructor
    · intro h
      simp at h
    · rintro ⟨k, hk1, hk2, hk3⟩
      exfalso
      omega
termination_by (timeout - (elapsed : Int)).toNat
decreasing_by omega

/-- The elapsed time on return is bounded: the loop never runs past the
timeout by more than one attempt duration plus one sleep. -/
theorem wait_for_ssh_loop_elapsed_le (probe : Nat → Bool) (dur : Nat → Nat)
    (timeout : Int) (D : Nat) (hD : ∀ k, dur k ≤ D) (i elapsed : Nat) :
    ((wait_for_ssh_loop probe dur timeout i elapsed).2.2 : Int) ≤
      max (elapsed : Int) (timeout + D + 1) := by
  rw [wait_for_ssh_loop_eq]
  by_cases h1 : (elapsed : Int) < timeout
  · rw [if_pos h1]
    by_cases h2 : probe i
    · rw [if_pos h2]
      have := hD i
      simp only []
      push_cast
      omega
    · rw [if_neg h2]
      have ih := wait_for_ssh_loop_elapsed_le probe dur timeout D hD (i + 1)
        (elapsed + dur i + 2)
      have := hD i
      push_cast at ih ⊢
      omega
  · rw [if_neg h1]
    simp only []
    omega
termination_by (timeout - (elapsed : Int)).toNat
decreasing_by omega

/-- C7: the Readiness Prober.  Each attempt's ssh command carries the
5-second connect timeout; the prober returns true exactly when some attempt
succeeds with all earlier attempts failing and the cumulative elapsed time
(each failed attempt adding its duration plus the fixed 2-second sleep)
still below the timeout at that attempt's `while` test; it returns false
only once the elapsed time has reached the timeout; and it terminates with
total elapsed time at most `timeout + D + 1` seconds whenever every attempt
takes at most `D` seconds. -/
theorem C7_wait_for_ssh_spec (probe : Nat → Bool) (dur : Nat → Nat)
    (timeout : Int) (D : Nat) (key ip : String) (hD : ∀ k, dur k ≤ D) :
    "ConnectTimeout=5" ∈ ssh_probe_cmd key ip ∧
    ((wait_for_ssh probe dur timeout).1 = true ↔
      ∃ k, (∀ j, j < k → probe j = false) ∧ probe k = true ∧
        ((elapsedBefore dur k : Int) < timeout)) ∧
    ((wait_for_ssh probe dur timeout).1 = false →
      timeout ≤ ((wait_for_ssh probe dur timeout).2.2 : Int)) ∧
    ((wait_for_ssh probe dur timeout).2.2 : Int) ≤ max 0 (timeout + D + 1) := by
  refine ⟨?_, ?_, ?_, ?_⟩
  · simp [ssh_probe_cmd, base_ssh_cmd]
  · have h := wait_for_ssh_loop_true_iff probe dur timeout 0 0
    simpa [wait_for_ssh] using h
  · intro h
    exact wait_for_ssh_loop_false_elapsed probe dur timeout 0 0 h
  · have h := wait_for_ssh_loop_elapsed_le probe dur timeout D hD 0 0
    simpa [wait_for_ssh] using h

/-- Witness for C7: the second attempt succeeds within a 10-second budget
(each attempt taking 1 second), so the prober returns true. -/
theorem C7_wait_for_ssh_spec_witness :
    "ConnectTimeout=5" ∈ ssh_probe_cmd "/home/user/key" "203.0.113.5" ∧
    (wait_for_ssh (fun k => decide (k = 1)) (fun _ => 1) 10).1 = true := by
  have h := C7_wait_for_ssh_spec (fun k => decide (k = 1)) (fun _ => 1) 10 1
    "/home/user/key" "203.0.113.5" (fun _ => le_refl 1)
  refine ⟨h.1, (h.2.1).mpr ⟨1, ?_, by decide, by decide⟩⟩
  intro j hj
  have hj0 : j = 0 := by omega
  rw [hj0]
  decide

end Spawnm
